import Mathlib

/-!
Verification development for the collaborative-workspace backend
(PonyNotes cloud server). The definitions below are a shallow embedding of
the Rust source: the subscription plan limits
(`src/biz/workspace/subscription_plan_limits.rs`), the collab creation,
batch creation, publish, realtime-stream and full-sync HTTP handlers
(`src/api/workspace.rs`). Byte strings are modelled as `List Nat`, the
64-bit signed integers of the source as `Int` (the quantities involved are
byte counts far below the overflow range), and calls into external crates
(CRDT decoding, brotli and zstd codecs, serde, the database layer and the
indexer scheduler) as explicit oracle parameters, so that every control
path of the handlers stays visible and executable.
-/

namespace PonyNotes

/-- Error classes of the `AppError` type as used by the handlers in
`src/api/workspace.rs`. The enum itself lives outside the provided sources;
the constructors below are the ones the handlers construct, plus `busy`,
modelled from the spec: the spec taxonomy names a dedicated retryable
`Busy` class for saturation. -/
inductive AppError where
  | invalidRequest (msg : String)
  | noRequiredData (msg : String)
  | planLimitExceeded (msg : String)
  | internal (msg : String)
  | busy (msg : String)
  deriving DecidableEq, Repr

/-- Modelled from the spec: `Busy` is the retryable saturation class of the
error taxonomy; every other class is not the retryable-busy class. -/
def AppError.isRetryableBusy : AppError → Bool
  | .busy _ => true
  | _ => false

/-- Subscription plans, taken from the exhaustive `match` in
`PlanLimits::from_plan` (`subscription_plan_limits.rs`). -/
inductive SubscriptionPlan where
  | free
  | basic
  | pro
  | team
  | aiMax
  | aiLocal
  deriving DecidableEq, Repr

/-- Largest value of the 64-bit signed integer type of the source. -/
def i64Max : Int := 9223372036854775807

/-- Plan limits configuration for each subscription tier
(`struct PlanLimits`). -/
structure PlanLimits where
  member_limit : Int
  storage_bytes_limit : Int
  ai_responses_limit : Int
  single_upload_limit : Int
  storage_unlimited : Bool
  ai_unlimited : Bool
  deriving DecidableEq, Repr

/-- Limits of the Pro tier, written out once because the AiMax and AiLocal
branches of `from_plan` derive their limits from the Pro branch. -/
def proPlanLimits : PlanLimits :=
  { member_limit := 5
    storage_bytes_limit := 10 * 1024 * 1024 * 1024
    ai_responses_limit := 40
    single_upload_limit := 10 * 1024 * 1024
    storage_unlimited := false
    ai_unlimited := false }

/-- `PlanLimits::from_plan`: the limits for a given subscription plan. -/
def PlanLimits.fromPlan : SubscriptionPlan → PlanLimits
  | .free =>
    { member_limit := i64Max
      storage_bytes_limit := 0
      ai_responses_limit := 10
      single_upload_limit := 0
      storage_unlimited := true
      ai_unlimited := false }
  | .basic =>
    { member_limit := 2
      storage_bytes_limit := 2 * 1024 * 1024 * 1024
      ai_responses_limit := 10
      single_upload_limit := 5 * 1024 * 1024
      storage_unlimited := false
      ai_unlimited := false }
  | .pro => proPlanLimits
  | .team =>
    { member_limit := 10
      storage_bytes_limit := 20 * 1024 * 1024 * 1024
      ai_responses_limit := 120
      single_upload_limit := 20 * 1024 * 1024
      storage_unlimited := false
      ai_unlimited := false }
  | .aiMax =>
    { proPlanLimits with ai_responses_limit := i64Max, ai_unlimited := true }
  | .aiLocal =>
    { proPlanLimits with ai_responses_limit := i64Max, ai_unlimited := true }

/-- `PlanLimits::can_add_members`. -/
def PlanLimits.canAddMembers (self : PlanLimits)
    (current_count members_to_add : Int) : Bool :=
  current_count + members_to_add ≤ self.member_limit

/-- `PlanLimits::can_add_storage`: unlimited storage always admits,
otherwise current plus incoming must not exceed the byte limit. -/
def PlanLimits.canAddStorage (self : PlanLimits)
    (current_bytes bytes_to_add : Int) : Bool :=
  if self.storage_unlimited then
    true
  else
    current_bytes + bytes_to_add ≤ self.storage_bytes_limit

/-- `PlanLimits::can_upload_file`. -/
def PlanLimits.canUploadFile (self : PlanLimits) (file_size : Int) : Bool :=
  file_size ≤ self.single_upload_limit

/-- `PlanLimits::can_use_ai`. -/
def PlanLimits.canUseAi (self : PlanLimits) (current_count : Int) : Bool :=
  if self.ai_unlimited then
    true
  else
    current_count < self.ai_responses_limit

/-- Collab types, the closed enum used by `validate_require_data` and the
indexing filter (from the `collab-entity` crate as used by the handlers). -/
inductive CollabType where
  | document
  | database
  | folder
  | workspaceDatabase
  | userAwareness
  deriving DecidableEq, Repr

/-- Observable steps of a handler run, used to state ordering properties
(capacity check before the transaction, index submission relative to the
write, one bulk insert). -/
inductive Ev where
  | capacityCheck
  | decodeCollab
  | validateData
  | indexSubmit
  | txBegin
  | upsert
  | txCommit
  | storageCheck
  | batchInsert
  deriving DecidableEq, Repr

/-- Persistent collab store, keyed by object id, holding the stored
`doc_state` bytes (an association list standing for the database table). -/
abbrev Store : Type := List (Nat × List Nat)

/-- Insert-or-update semantics keyed by object id, as performed by
`upsert_new_collab_with_transaction` once the transaction commits. -/
def storeUpsert (s : Store) (oid : Nat) (bytes : List Nat) : Store :=
  match s with
  | [] => [(oid, bytes)]
  | (k, v) :: rest =>
    if k = oid then (oid, bytes) :: rest else (k, v) :: storeUpsert rest oid bytes

/-- Lookup of the stored doc state for an object id. -/
def storeGet (s : Store) (oid : Nat) : Option (List Nat) :=
  match s with
  | [] => none
  | (k, v) :: rest => if k = oid then some v else storeGet rest oid

/-- Abstract in-memory CRDT replica produced by `collab_from_encode_collab`;
its structure is owned by the external collab crate, so the model only
carries an abstract tag that the oracle functions inspect. -/
abbrev Collab : Type := Nat

/-- Input of `create_collab_handler` after parameter parsing:
`CreateCollabParams::split` yields the collab params and the workspace id;
the two database reads feeding the capacity check (current usage and the
plan limit converted to bytes) are carried as inputs as well. -/
structure CreateCollabInput where
  object_id : Nat
  workspace_id : Nat
  encoded_collab_v1 : List Nat
  collab_type : CollabType
  current_usage : Int
  total_limit_bytes : Int
  deriving DecidableEq, Repr

/-- Oracles for the external calls made by `create_collab_handler`:
CRDT decoding, structural validation, the indexing gate, plain-text
extraction, the indexer submission and the transactional upsert. -/
structure CreateCollabEnv where
  decodeCollab : List Nat → Option Collab
  validateRequireData : CollabType → Collab → Bool
  canIndexWorkspace : Bool
  documentParagraphs : Collab → Except Unit (List String)
  indexSubmitOne : Except AppError Unit
  upsertResult : Except AppError Unit

/-- Outcome of a `create_collab_handler` run: the HTTP-level result, the
ordered trace of observable steps, and the store after the run. -/
structure CreateCollabOut where
  result : Except AppError Unit
  events : List Ev
  finalStore : Store

/-- Shallow embedding of `create_collab_handler`
(`src/api/workspace.rs`, lines 1080-1192): reject `object_id =
workspace_id`; capacity check against usage plus incoming size; decode the
encoded collab; validate required structure for the collab type; if the
workspace is indexable and plain text extraction succeeds, submit the
pending index task (with error propagation); then begin a transaction,
upsert, and commit. -/
def createCollabHandler (inp : CreateCollabInput) (env : CreateCollabEnv)
    (store : Store) : CreateCollabOut :=
  if inp.object_id = inp.workspace_id then
    { result := .error (.invalidRequest
        "object_id cannot be the same as workspace_id")
      events := []
      finalStore := store }
  else
    let content_size : Int := inp.encoded_collab_v1.length
    if inp.current_usage + content_size > inp.total_limit_bytes then
      { result := .error (.planLimitExceeded "Storage limit exceeded")
        events := [.capacityCheck]
        finalStore := store }
    else
      match env.decodeCollab inp.encoded_collab_v1 with
      | none =>
        { result := .error (.noRequiredData
            "Failed to create collab from encoded collab")
          events := [.capacityCheck, .decodeCollab]
          finalStore := store }
      | some collab =>
        if env.validateRequireData inp.collab_type collab = false then
          { result := .error (.noRequiredData
              "collab doc state is not correct")
            events := [.capacityCheck, .decodeCollab, .validateData]
            finalStore := store }
        else
          let preEvents := [Ev.capacityCheck, Ev.decodeCollab, Ev.validateData]
          let indexAttempted :=
            env.canIndexWorkspace &&
              (env.documentParagraphs collab matches .ok _)
          if indexAttempted then
            match env.indexSubmitOne with
            | .error e =>
              { result := .error e
                events := preEvents ++ [.indexSubmit]
                finalStore := store }
            | .ok _ =>
              match env.upsertResult with
              | .error e =>
                { result := .error e
                  events := preEvents ++ [.indexSubmit, .txBegin, .upsert]
                  finalStore := store }
              | .ok _ =>
                { result := .ok ()
                  events := preEvents ++
                    [.indexSubmit, .txBegin, .upsert, .txCommit]
                  finalStore :=
                    storeUpsert store inp.object_id inp.encoded_collab_v1 }
          else
            match env.upsertResult with
            | .error e =>
              { result := .error e
                events := preEvents ++ [.txBegin, .upsert]
                finalStore := store }
            | .ok _ =>
              { result := .ok ()
                events := preEvents ++ [.txBegin, .upsert, .txCommit]
                finalStore :=
                  storeUpsert store inp.object_id inp.encoded_collab_v1 }

/-- Big-endian interpretation of four bytes, `u32::from_be_bytes`. -/
def beU32 (b0 b1 b2 b3 : Nat) : Nat :=
  b0 * 16777216 + b1 * 65536 + b2 * 256 + b3

/-- Little-endian interpretation of four bytes. -/
def leU32 (b0 b1 b2 b3 : Nat) : Nat :=
  b3 * 16777216 + b2 * 65536 + b1 * 256 + b0

/-- Frame extraction loop of `batch_create_collab_handler`
(`src/api/workspace.rs`, lines 1211-1233): repeatedly read a 4-byte
big-endian length prefix and slice out that many bytes; stop when fewer
than 4 bytes remain or the declared frame body is incomplete. -/
def parseBatchFrames : List Nat → List (List Nat)
  | b0 :: b1 :: b2 :: b3 :: rest =>
    let size := beU32 b0 b1 b2 b3
    if size ≤ rest.length then
      rest.take size :: parseBatchFrames (rest.drop size)
    else
      []
  | _ => []
  termination_by l => l.length
  decreasing_by
    simp only [List.length_drop, List.length_cons]
    omega

/-- Paragraph extraction outcome paired with the validated collab params,
matching the tuple `(Option<Result<Vec<String>>>, CollabParams)` built by
the parallel stage of `batch_create_collab_handler`: `some` for Document
frames (the `Document::open` result), `none` for every other collab type. -/
structure CollabParams where
  object_id : Nat
  collab_type : CollabType
  encoded_collab_v1 : List Nat
  deriving DecidableEq, Repr

deriving instance DecidableEq for Except

structure BatchItem where
  indexText : Option (Except Unit (List String))
  params : CollabParams
  deriving DecidableEq, Repr

/-- Pending index task collected for an eligible batch item
(`UnindexedCollabTask`), reduced to the fields the ordering claims need. -/
structure IndexTask where
  object_id : Nat
  collab_type : CollabType
  paragraphs : List String
  deriving DecidableEq, Repr

/-- Oracles for the external calls of `batch_create_collab_handler`:
per-frame decompression-decoding-validation (the body of the parallel
`filter_map`), the indexing gates, the storage-limit check
(`check_user_storage_limit`, outside the provided sources), the bulk
insert and the batch index submission. -/
structure BatchEnv where
  processFrame : List Nat → Option BatchItem
  canIndexWorkspace : Bool
  indexingEnabled : CollabType → Bool
  storageCheck : Except AppError Unit
  insertResult : Except AppError Unit
  indexSubmitBatch : Except AppError Unit

/-- Outcome of a `batch_create_collab_handler` run: HTTP-level result, rows
persisted by the bulk insert, pending index tasks submitted, and the
ordered trace of observable steps. -/
structure BatchOut where
  result : Except AppError Unit
  persisted : List CollabParams
  submittedTasks : List IndexTask
  events : List Ev

/-- Pending index tasks collected before the insert: items surviving the
`is_indexing_enabled` filter whose paragraph extraction succeeded. -/
def batchPendingTasks (env : BatchEnv) (list : List BatchItem) :
    List IndexTask :=
  if env.canIndexWorkspace then
    (list.filter fun it => env.indexingEnabled it.params.collab_type).filterMap
      fun it =>
        match it.indexText with
        | some (.ok ps) =>
          some { object_id := it.params.object_id
                 collab_type := it.params.collab_type
                 paragraphs := ps }
        | _ => none
  else
    []

/-- Shallow embedding of `batch_create_collab_handler`
(`src/api/workspace.rs`, lines 1194-1347): extract big-endian
length-prefixed frames from the buffered payload, process every frame
independently and drop the ones that fail (the `filter_map`), reject an
empty surviving list, check the storage limit on the aggregate size,
collect pending index tasks, bulk-insert all surviving rows in one call,
and only afterwards submit the collected index tasks as one batch. -/
def batchCreateCollabHandler (payload : List Nat) (env : BatchEnv) :
    BatchOut :=
  let frames := parseBatchFrames payload
  let list := frames.filterMap env.processFrame
  if list.isEmpty then
    { result := .error (.invalidRequest "Empty collab params list")
      persisted := []
      submittedTasks := []
      events := [] }
  else
    match env.storageCheck with
    | .error e =>
      { result := .error e
        persisted := []
        submittedTasks := []
        events := [.storageCheck] }
    | .ok _ =>
      let pending := batchPendingTasks env list
      match env.insertResult with
      | .error e =>
        { result := .error e
          persisted := []
          submittedTasks := []
          events := [.storageCheck, .batchInsert] }
      | .ok _ =>
        if pending.isEmpty then
          { result := .ok ()
            persisted := list.map (·.params)
            submittedTasks := []
            events := [.storageCheck, .batchInsert] }
        else
          match env.indexSubmitBatch with
          | .error e =>
            { result := .error e
              persisted := list.map (·.params)
              submittedTasks := []
              events := [.storageCheck, .batchInsert, .indexSubmit] }
          | .ok _ =>
            { result := .ok ()
              persisted := list.map (·.params)
              submittedTasks := pending
              events := [.storageCheck, .batchInsert, .indexSubmit] }

/-- Read exactly `n` bytes from the front of a stream, as
`PayloadReader::read_exact` does; fails when the stream is shorter. -/
def takeExact (n : Nat) (l : List Nat) : Option (List Nat × List Nat) :=
  if n ≤ l.length then some (l.take n, l.drop n) else none

theorem takeExact_length {n : Nat} {l a b : List Nat}
    (h : takeExact n l = some (a, b)) :
    n ≤ l.length ∧ a.length = n ∧ b.length = l.length - n := by
  unfold takeExact at h
  by_cases hle : n ≤ l.length
  · simp only [hle, if_pos, Option.some.injEq, Prod.mk.injEq] at h
    obtain ⟨ha, hb⟩ := h
    subst ha; subst hb
    exact ⟨hle, by simp [List.length_take]; omega, by simp [List.length_drop]⟩
  · simp [hle] at h

/-- One published item: the decoded metadata value (abstract, produced by the
serde decoding oracle) and the raw payload bytes. -/
structure PublishItem where
  meta : Nat
  data : List Nat
  deriving DecidableEq, Repr

/-- Numeric value of a 4-byte length prefix: little-endian when `le` is
true (the `read_u32_little_endian` reading of the source), big-endian
otherwise (the reading the spec describes). -/
def prefixVal (le : Bool) (lb : List Nat) : Nat :=
  if le then
    leU32 (lb.getD 0 0) (lb.getD 1 0) (lb.getD 2 0) (lb.getD 3 0)
  else
    beU32 (lb.getD 0 0) (lb.getD 1 0) (lb.getD 2 0) (lb.getD 3 0)

/-- Loop of `post_publish_collabs_handler` (`src/api/workspace.rs`, lines
2667-2702), parameterized over the endianness of the 4-byte length prefix
(`le = true` reads the prefix little-endian, as
`PayloadReader::read_u32_little_endian` does) and over the serde metadata
decoding oracle `dm`. Per iteration: read the metadata length prefix,
reject above 4 MiB, stop successfully on zero, read and decode the
metadata body, read the data length prefix, reject above 32 MiB, read the
data body, accumulate the pair. -/
def publishLoop (le : Bool) (dm : List Nat → Option Nat) (bytes : List Nat)
    (acc : List PublishItem) : Except AppError (List PublishItem) :=
  match h1 : takeExact 4 bytes with
  | none => .error (.internal "failed to read metadata length")
  | some (lenBytes, rest1) =>
    let meta_len := prefixVal le lenBytes
    if meta_len > 4 * 1024 * 1024 then
      .error (.invalidRequest "metadata too large")
    else if meta_len = 0 then
      .ok acc.reverse
    else
      match h2 : takeExact meta_len rest1 with
      | none => .error (.internal "failed to read metadata frame")
      | some (metaBytes, rest2) =>
        match dm metaBytes with
        | none => .error (.invalidRequest "invalid metadata")
        | some meta =>
          match h3 : takeExact 4 rest2 with
          | none => .error (.internal "failed to read data length")
          | some (lenBytes2, rest3) =>
            let data_len := prefixVal le lenBytes2
            if data_len > 32 * 1024 * 1024 then
              .error (.invalidRequest "data too large")
            else
              match h4 : takeExact data_len rest3 with
              | none => .error (.internal "failed to read data frame")
              | some (dataBytes, rest4) =>
                publishLoop le dm rest4
                  ({ meta := meta, data := dataBytes } :: acc)
  termination_by bytes.length
  decreasing_by
    have e1 := takeExact_length h1
    have e2 := takeExact_length h2
    have e3 := takeExact_length h3
    have e4 := takeExact_length h4
    omega

/-- Publish stream parsing as the source performs it: length prefixes read
with `read_u32_little_endian`. -/
def parsePublishStream (dm : List Nat → Option Nat) (bytes : List Nat) :
    Except AppError (List PublishItem) :=
  publishLoop true dm bytes []

/-- Publish stream parsing following the words of the spec, which states
that every length prefix is a 4-byte big-endian u32; kept for comparison
with `parsePublishStream`. -/
def parsePublishStreamBESpec (dm : List Nat → Option Nat)
    (bytes : List Nat) : Except AppError (List PublishItem) :=
  publishLoop false dm bytes []

/-- Little-endian 4-byte encoding of a length, as the conforming client
produces for `read_u32_little_endian`. -/
def enc4LE (n : Nat) : List Nat :=
  [n % 256, n / 256 % 256, n / 65536 % 256, n / 16777216 % 256]

/-- Encoding of one metadata-payload pair with little-endian length
prefixes. -/
def encodePublishPair (metaBytes data : List Nat) : List Nat :=
  enc4LE metaBytes.length ++ metaBytes ++ enc4LE data.length ++ data

/-- Encoding of a whole publish stream: the pairs in order, then the
zero-length metadata terminator. -/
def encodePublishStream (pairs : List (List Nat × List Nat)) : List Nat :=
  (pairs.map fun p => encodePublishPair p.1 p.2).flatten ++ enc4LE 0

/-- Full-sync request parameters, the length-prefixed structured message
`CollabDocStateParams` decoded from the HTTP body (the protobuf decoding
itself is an oracle). -/
structure CollabDocStateParams where
  collab_type : Nat
  doc_state : List Nat
  sv : List Nat
  compression : Nat
  deriving DecidableEq, Repr

/-- Compression tag of the full-sync message. Modelled from the spec: the
wire enum `compression: enum(None|Zstd)`; its numeric decoding
(`PayloadCompressionType::try_from`) lives outside the provided sources
and is modelled as tag 0 for none, tag 1 for zstd, anything else
rejected. -/
inductive PayloadCompressionType where
  | plain
  | zstd
  deriving DecidableEq, Repr

def payloadCompressionTryFrom (n : Nat) : Option PayloadCompressionType :=
  if n = 0 then some .plain
  else if n = 1 then some .zstd
  else none

/-- Message delivered through `try_send` to the realtime server for a
full-sync request (`ClientHttpUpdateMessage`), reduced to the payload
fields the claims mention. -/
structure DeliveredMsg where
  update : List Nat
  state_vector : List Nat
  deriving DecidableEq, Repr

/-- HTTP response as observed by the client: status code and raw body. -/
structure HttpResp where
  status : Nat
  body : List Nat
  deriving DecidableEq, Repr

/-- Modelled from the spec: `AppResponseError::error_response` (outside the
provided sources) renders a failure from the actor as an empty body with
an error status, per the spec sentence about the full-sync response. -/
def errorResponse (e : AppError) : HttpResp :=
  { status :=
      match e with
      | .invalidRequest _ => 400
      | .noRequiredData _ => 422
      | .planLimitExceeded _ => 422
      | .internal _ => 500
      | .busy _ => 503
    body := [] }

/-- Oracles for the external calls of `collab_full_sync_handler`: protobuf
decoding of the body, the zstd codec, the storage-limit check, mailbox
admission, and the one-shot reply from the document actor. -/
structure FullSyncEnv where
  decodeBody : List Nat → Option CollabDocStateParams
  zstdDecode : List Nat → Option (List Nat)
  zstdEncode : Nat → List Nat → List Nat
  storageCheck : Except AppError Unit
  mailboxFree : Bool
  actorReply : Except AppError (Option (List Nat))

/-- Outcome of a `collab_full_sync_handler` run: the result (an error
propagated to the framework, or a built response) and the message
delivered to the realtime server, when admission succeeded. -/
structure FullSyncOut where
  result : Except AppError HttpResp
  delivered : Option DeliveredMsg

/-- Shallow embedding of `collab_full_sync_handler`
(`src/api/workspace.rs`, lines 3233-3342): reject an empty body, then a
body above 50 MiB, then decode `CollabDocStateParams`, reject an empty
`doc_state`, decode the compression tag, decompress `doc_state` and the
state vector when the tag is zstd, run the storage-limit check, deliver
through `try_send` (an Internal error when the mailbox is saturated), and
map the actor reply onto the response: a snapshot is returned as a body
compressed with zstd at level 3, no snapshot as an empty body with status
500, an actor error through `error_response`. -/
def collabFullSyncHandler (body : List Nat) (env : FullSyncEnv) :
    FullSyncOut :=
  if body.isEmpty then
    { result := .error (.invalidRequest "body is empty"), delivered := none }
  else if body.length > 1024 * 1024 * 50 then
    { result := .error (.invalidRequest "body size exceeds limit")
      delivered := none }
  else
    match env.decodeBody body with
    | none =>
      { result := .error (.invalidRequest
          "Failed to parse CollabDocStateParams")
        delivered := none }
    | some params =>
      if params.doc_state.isEmpty then
        { result := .error (.invalidRequest "doc state is empty")
          delivered := none }
      else
        match payloadCompressionTryFrom params.compression with
        | none =>
          { result := .error (.invalidRequest
              "Failed to parse PayloadCompressionType")
            delivered := none }
        | some comp =>
          let docRes :=
            match comp with
            | .plain => some params.doc_state
            | .zstd => env.zstdDecode params.doc_state
          match docRes with
          | none =>
            { result := .error (.invalidRequest
                "Failed to decompress doc_state")
              delivered := none }
          | some doc_state =>
            let svRes :=
              match comp with
              | .plain => some params.sv
              | .zstd => env.zstdDecode params.sv
            match svRes with
            | none =>
              { result := .error (.invalidRequest "Failed to decompress sv")
                delivered := none }
            | some sv =>
              match env.storageCheck with
              | .error e => { result := .error e, delivered := none }
              | .ok _ =>
                if env.mailboxFree = false then
                  { result := .error (.internal
                      "Failed to send message to server")
                    delivered := none }
                else
                  let msg : DeliveredMsg :=
                    { update := doc_state, state_vector := sv }
                  match env.actorReply with
                  | .ok (some data) =>
                    { result := .ok
                        { status := 200, body := env.zstdEncode 3 data }
                      delivered := some msg }
                  | .ok none =>
                    { result := .ok { status := 500, body := [] }
                      delivered := some msg }
                  | .error e =>
                    { result := .ok (errorResponse e)
                      delivered := some msg }

/-- Outcome of a `post_realtime_message_stream_handler` run. -/
structure RealtimeStreamOut where
  result : Except AppError Unit
  delivered : Option Nat

/-- Shallow embedding of `post_realtime_message_stream_handler`
(`src/api/workspace.rs`, lines 2775-2818): parse the realtime message
(`parser_realtime_msg`, whose outcome is an oracle), then `try_send` it to
the realtime server; when the mailbox is saturated the send fails
immediately and the handler returns an Internal error. -/
def postRealtimeMessageStreamHandler (parsedMsg : Except AppError Nat)
    (mailboxFree : Bool) : RealtimeStreamOut :=
  match parsedMsg with
  | .error e => { result := .error e, delivered := none }
  | .ok m =>
    if mailboxFree then
      { result := .ok (), delivered := some m }
    else
      { result := .error (.internal
          "Failed to send message to websocket server")
        delivered := none }

/-- Item produced by a successful parse of an encoded pair: the decoded
metadata value and the raw data. -/
def itemOf (dm : List Nat → Option Nat) (p : List Nat × List Nat) :
    PublishItem :=
  { meta := (dm p.1).getD 0, data := p.2 }

/-- Well-formedness of a pair list for the publish stream: nonempty
metadata within the 4 MiB cap, decodable metadata, data within the 32 MiB
cap. -/
def PairsOk (dm : List Nat → Option Nat)
    (pairs : List (List Nat × List Nat)) : Prop :=
  ∀ p ∈ pairs, p.1.length ≠ 0 ∧ p.1.length ≤ 4 * 1024 * 1024 ∧
    (∃ v, dm p.1 = some v) ∧ p.2.length ≤ 32 * 1024 * 1024

/-- Big-endian 4-byte encoding of a length, matching `u32::from_be_bytes`
in the batch-create frame loop. -/
def enc4BE (n : Nat) : List Nat :=
  [n / 16777216 % 256, n / 65536 % 256, n / 256 % 256, n % 256]

/-- Ten single-byte frames, each preceded by its big-endian length. -/
def frames10 : List (List Nat) := (List.range 10).map fun k => [k]

def payload10 : List Nat := (frames10.map fun f => enc4BE f.length ++ f).flatten

/-- Per-frame processing oracle that fails on exactly one frame. -/
def processFrame10 : List Nat → Option BatchItem := fun b =>
  if b = [9] then
    none
  else
    some { indexText := none
           params := { object_id := b.headD 0
                       collab_type := .database
                       encoded_collab_v1 := b } }

def env10 : BatchEnv :=
  { processFrame := processFrame10
    canIndexWorkspace := false
    indexingEnabled := fun _ => true
    storageCheck := .ok ()
    insertResult := .ok ()
    indexSubmitBatch := .ok () }

/-- All-success oracle environment for concrete runs of the single-create
handler. -/
def okCreateEnv : CreateCollabEnv :=
  { decodeCollab := fun _ => some 0
    validateRequireData := fun _ _ => true
    canIndexWorkspace := true
    documentParagraphs := fun _ => .ok ["hello"]
    indexSubmitOne := .ok ()
    upsertResult := .ok () }

/-- Request whose usage plus size exceeds the limit. -/
def inpOver : CreateCollabInput :=
  { object_id := 1
    workspace_id := 2
    encoded_collab_v1 := [7, 8, 9]
    collab_type := .document
    current_usage := 10
    total_limit_bytes := 5 }

/-- Request whose usage plus size equals the limit exactly. -/
def inpExact : CreateCollabInput :=
  { object_id := 1
    workspace_id := 2
    encoded_collab_v1 := [7, 8, 9]
    collab_type := .document
    current_usage := 7
    total_limit_bytes := 10 }

/-- Request whose object id equals the workspace id. -/
def inpSame : CreateCollabInput :=
  { object_id := 4
    workspace_id := 4
    encoded_collab_v1 := [7, 8, 9]
    collab_type := .folder
    current_usage := 0
    total_limit_bytes := 100 }

/-- Pre-existing store contents used by the concrete runs. -/
def demoStore : Store := [(1, [1, 2, 3]), (5, [9])]

/-- Metadata decoding oracle accepting every frame. -/
def dmAny : List Nat → Option Nat := fun _ => some 7

/-- One-pair publish stream: prefix 1 (little-endian), one metadata byte,
prefix 0 for the data, then the zero terminator. -/
def bytesC4 : List Nat := [1, 0, 0, 0, 65, 0, 0, 0, 0, 0, 0, 0, 0]

/-- All-reject decoding environment for the full-sync handler. -/
def envFS : FullSyncEnv :=
  { decodeBody := fun _ => none
    zstdDecode := fun _ => none
    zstdEncode := fun _ d => d
    storageCheck := .ok ()
    mailboxFree := true
    actorReply := .ok none }

/-- Body one byte above the 50 MiB cap. -/
def bigBody : List Nat := List.replicate 52428801 0

/-- Environment whose decoded params carry an empty state vector. -/
def envC6 : FullSyncEnv :=
  { decodeBody := fun _ =>
      some { collab_type := 0, doc_state := [1], sv := [], compression := 0 }
    zstdDecode := fun _ => none
    zstdEncode := fun _ d => d
    storageCheck := .ok ()
    mailboxFree := true
    actorReply := .ok none }

/-- Environment reaching the admission step with a saturated mailbox. -/
def envSat : FullSyncEnv :=
  { decodeBody := fun _ =>
      some { collab_type := 0, doc_state := [1], sv := [2], compression := 0 }
    zstdDecode := fun _ => none
    zstdEncode := fun _ d => d
    storageCheck := .ok ()
    mailboxFree := false
    actorReply := .ok none }

/-- Environment whose actor returns a snapshot; the zstd encoder oracle
records the level it was called with as the first output byte. -/
def envSnap : FullSyncEnv :=
  { decodeBody := fun _ =>
      some { collab_type := 0, doc_state := [1], sv := [2], compression := 0 }
    zstdDecode := fun _ => none
    zstdEncode := fun lvl d => lvl :: d
    storageCheck := .ok ()
    mailboxFree := true
    actorReply := .ok (some [1, 2]) }

/-- Batch environment whose only frame is an indexable Document item. -/
def processFrameDoc : List Nat → Option BatchItem := fun b =>
  some { indexText := some (.ok ["t"])
         params := { object_id := 1
                     collab_type := .document
                     encoded_collab_v1 := b } }

def envIdx : BatchEnv :=
  { processFrame := processFrameDoc
    canIndexWorkspace := true
    indexingEnabled := fun _ => true
    storageCheck := .ok ()
    insertResult := .ok ()
    indexSubmitBatch := .ok () }

def payloadIdx : List Nat := [0, 0, 0, 1, 5]

theorem takeExact_append {a b : List Nat} :
    takeExact a.length (a ++ b) = some (a, b) := by
  unfold takeExact
  rw [if_pos (by simp)]
  simp

theorem publishLoop_eof (le : Bool) (dm : List Nat → Option Nat)
    (acc : List PublishItem) :
    publishLoop le dm [] acc = .error (.internal "failed to read metadata length") := by
  rw [publishLoop.eq_def]
  simp [takeExact]

theorem publishLoop_guard_meta (le : Bool) (dm : List Nat → Option Nat)
    (lb rest : List Nat) (acc : List PublishItem)
    (hlb : lb.length = 4) (h : prefixVal le lb > 4 * 1024 * 1024) :
    publishLoop le dm (lb ++ rest) acc =
      .error (.invalidRequest "metadata too large") := by
  rw [publishLoop.eq_def]
  have ht : takeExact 4 (lb ++ rest) = some (lb, rest) := by
    rw [← hlb]; exact takeExact_append
  split
  · rename_i heq
    rw [ht] at heq
    cases heq
  · rename_i lenBytes rest1 heq
    rw [ht] at heq
    injection heq with heq2
    injection heq2 with hl hr
    subst hl
    subst hr
    simp [h]

theorem publishLoop_zero (le : Bool) (dm : List Nat → Option Nat)
    (lb rest : List Nat) (acc : List PublishItem)
    (hlb : lb.length = 4) (h : prefixVal le lb = 0) :
    publishLoop le dm (lb ++ rest) acc = .ok acc.reverse := by
  rw [publishLoop.eq_def]
  have ht : takeExact 4 (lb ++ rest) = some (lb, rest) := by
    rw [← hlb]; exact takeExact_append
  split
  · rename_i heq
    rw [ht] at heq
    cases heq
  · rename_i lenBytes rest1 heq
    rw [ht] at heq
    injection heq with heq2
    injection heq2 with hl hr
    subst hl
    subst hr
    simp [h]

theorem prefixVal_enc4LE {n : Nat} (h : n < 4294967296) :
    prefixVal true (enc4LE n) = n := by
  simp [prefixVal, enc4LE, leU32]
  omega

theorem enc4LE_length (n : Nat) : (enc4LE n).length = 4 := by
  simp [enc4LE]

theorem publishLoop_step (dm : List Nat → Option Nat)
    (m d rest : List Nat) (v : Nat) (acc : List PublishItem)
    (hm0 : m.length ≠ 0) (hmc : m.length ≤ 4 * 1024 * 1024)
    (hdm : dm m = some v) (hdc : d.length ≤ 32 * 1024 * 1024) :
    publishLoop true dm (encodePublishPair m d ++ rest) acc =
      publishLoop true dm rest ({ meta := v, data := d } :: acc) := by
  have hm32 : m.length < 4294967296 := by omega
  have hd32 : d.length < 4294967296 := by omega
  rw [publishLoop.eq_def]
  have ht1 : takeExact 4 (encodePublishPair m d ++ rest) =
      some (enc4LE m.length, m ++ enc4LE d.length ++ d ++ rest) := by
    rw [← enc4LE_length m.length]
    rw [encodePublishPair]
    simp only [List.append_assoc]
    exact takeExact_append
  split
  · rename_i heq
    rw [ht1] at heq
    cases heq
  · rename_i lenBytes rest1 heq
    rw [ht1] at heq
    injection heq with heq2
    injection heq2 with hl hr
    subst hl
    subst hr
    rw [prefixVal_enc4LE hm32]
    rw [if_neg (by omega), if_neg hm0]
    have ht2 : takeExact m.length (m ++ (enc4LE d.length ++ (d ++ rest))) =
        some (m, enc4LE d.length ++ (d ++ rest)) := takeExact_append
    split
    · rename_i heq
      simp only [List.append_assoc] at heq
      rw [ht2] at heq
      cases heq
    · rename_i metaBytes rest2 heq
      simp only [List.append_assoc] at heq
      rw [ht2] at heq
      injection heq with heq2
      injection heq2 with hl hr
      subst hl
      subst hr
      rw [hdm]
      have ht3 : takeExact 4 (enc4LE d.length ++ (d ++ rest)) =
          some (enc4LE d.length, d ++ rest) := by
        rw [← enc4LE_length d.length]
        exact takeExact_append
      split
      · rename_i heq
        cases heq
      rename_i meta heq
      injection heq with hv
      subst hv
      split
      · rename_i heq
        rw [ht3] at heq
        cases heq
      · rename_i lenBytes2 rest3 heq
        rw [ht3] at heq
        injection heq with heq2
        injection heq2 with hl hr
        subst hl
        subst hr
        rw [prefixVal_enc4LE hd32]
        rw [if_neg (by omega)]
        have ht4 : takeExact d.length (d ++ rest) = some (d, rest) :=
          takeExact_append
        split
        · rename_i heq
          rw [ht4] at heq
          cases heq
        · rename_i dataBytes rest4 heq
          rw [ht4] at heq
          injection heq with heq2
          injection heq2 with hl hr
          subst hl
          subst hr
          rfl

theorem publishLoop_encode_terminated (dm : List Nat → Option Nat)
    (pairs : List (List Nat × List Nat)) (junk : List Nat)
    (h : PairsOk dm pairs) :
    ∀ acc : List PublishItem,
      publishLoop true dm
        ((pairs.map fun p => encodePublishPair p.1 p.2).flatten ++
          (enc4LE 0 ++ junk)) acc =
        .ok (acc.reverse ++ pairs.map (itemOf dm)) := by
  induction pairs with
  | nil =>
    intro acc
    simp only [List.map_nil, List.flatten_nil, List.nil_append]
    rw [publishLoop_zero true dm (enc4LE 0) junk acc (enc4LE_length 0)
      (prefixVal_enc4LE (by omega))]
    simp
  | cons p ps ih =>
    intro acc
    obtain ⟨hm0, hmc, ⟨v, hdm⟩, hdc⟩ := h p (by simp)
    have hps : PairsOk dm ps := fun q hq => h q (by simp [hq])
    simp only [List.map_cons, List.flatten_cons, List.append_assoc]
    rw [publishLoop_step dm p.1 p.2 _ v acc hm0 hmc hdm hdc]
    rw [ih hps ({ meta := v, data := p.2 } :: acc)]
    simp [itemOf, hdm]

theorem publishLoop_encode_unterminated (dm : List Nat → Option Nat)
    (pairs : List (List Nat × List Nat))
    (h : PairsOk dm pairs) :
    ∀ acc : List PublishItem,
      publishLoop true dm
        ((pairs.map fun p => encodePublishPair p.1 p.2).flatten) acc =
        .error (.internal "failed to read metadata length") := by
  induction pairs with
  | nil =>
    intro acc
    simp only [List.map_nil, List.flatten_nil]
    exact publishLoop_eof true dm acc
  | cons p ps ih =>
    intro acc
    obtain ⟨hm0, hmc, ⟨v, hdm⟩, hdc⟩ := h p (by simp)
    have hps : PairsOk dm ps := fun q hq => h q (by simp [hq])
    simp only [List.map_cons, List.flatten_cons]
    rw [publishLoop_step dm p.1 p.2 _ v acc hm0 hmc hdm hdc]
    exact ih hps _

/-- Claim C10: the Free plan has unlimited storage with a zero byte
limit, so `canAddStorage` accepts every usage and size; its single upload
limit is zero, so `canUploadFile` accepts only sizes at most zero; and
`canUseAi` holds exactly for counts below 10. -/
theorem free_plan_spec :
    (PlanLimits.fromPlan .free).storage_unlimited = true ∧
    (PlanLimits.fromPlan .free).storage_bytes_limit = 0 ∧
    (∀ c a : Int, (PlanLimits.fromPlan .free).canAddStorage c a = true) ∧
    (PlanLimits.fromPlan .free).single_upload_limit = 0 ∧
    (∀ f : Int, (PlanLimits.fromPlan .free).canUploadFile f = true ↔ f ≤ 0) ∧
    (∀ n : Int, (PlanLimits.fromPlan .free).canUseAi n = true ↔ n < 10) := by
  refine ⟨rfl, rfl, fun c a => ?_, rfl, fun f => ?_, fun n => ?_⟩
  · simp [PlanLimits.canAddStorage, PlanLimits.fromPlan]
  · simp [PlanLimits.canUploadFile, PlanLimits.fromPlan]
  · simp [PlanLimits.canUseAi, PlanLimits.fromPlan]

/-- Claim C9: a create-collab request whose object id equals the
workspace id is rejected with an invalid-request error with an empty
event trace: before the capacity check, validation, or any write. -/
theorem create_collab_same_id_rejected :
    ∀ (inp : CreateCollabInput) (env : CreateCollabEnv) (store : Store),
      inp.object_id = inp.workspace_id →
      (createCollabHandler inp env store).result =
          .error (.invalidRequest
            "object_id cannot be the same as workspace_id") ∧
        (createCollabHandler inp env store).events = [] ∧
        (createCollabHandler inp env store).finalStore = store := by
  intro inp env store h
  unfold createCollabHandler
  rw [if_pos h]
  exact ⟨rfl, rfl, rfl⟩

/-- Claim C1: a create-collab write whose current usage plus incoming size
exceeds the plan storage limit is rejected with the capacity-exceeded
error before any transactional write begins and leaves the stored doc
state byte-for-byte unchanged; a write whose usage plus size equals the
limit exactly is admitted; and `PlanLimits.canAddStorage` returns true iff
the plan is storage-unlimited or current plus incoming stays within the
byte limit. -/
theorem create_collab_capacity :
    (∀ (inp : CreateCollabInput) (env : CreateCollabEnv) (store : Store),
      inp.object_id ≠ inp.workspace_id →
      inp.current_usage + (inp.encoded_collab_v1.length : Int) >
          inp.total_limit_bytes →
      (createCollabHandler inp env store).result =
          .error (.planLimitExceeded "Storage limit exceeded") ∧
        Ev.txBegin ∉ (createCollabHandler inp env store).events ∧
        (createCollabHandler inp env store).finalStore = store) ∧
    (∀ (inp : CreateCollabInput) (env : CreateCollabEnv) (store : Store)
        (collab : Collab),
      inp.object_id ≠ inp.workspace_id →
      inp.current_usage + (inp.encoded_collab_v1.length : Int) =
          inp.total_limit_bytes →
      env.decodeCollab inp.encoded_collab_v1 = some collab →
      env.validateRequireData inp.collab_type collab = true →
      env.indexSubmitOne = .ok () →
      env.upsertResult = .ok () →
      (createCollabHandler inp env store).result = .ok ()) ∧
    (∀ (p : PlanLimits) (c a : Int),
      p.canAddStorage c a = true ↔
        (p.storage_unlimited = true ∨ c + a ≤ p.storage_bytes_limit)) := by
  refine ⟨?_, ?_, ?_⟩
  · intro inp env store hne hgt
    unfold createCollabHandler
    rw [if_neg hne]
    rw [if_pos hgt]
    exact ⟨rfl, by simp, rfl⟩
  · intro inp env store collab hne heq hdec hval hidx hup
    unfold createCollabHandler
    rw [if_neg hne]
    rw [if_neg (by omega)]
    simp only [hdec]
    rw [if_neg (by simp [hval])]
    simp only [hidx, hup]
    split <;> rfl
  · intro p c a
    cases h : p.storage_unlimited <;>
      simp [PlanLimits.canAddStorage, h]

theorem enc4BE_length (n : Nat) : (enc4BE n).length = 4 := by
  simp [enc4BE]

theorem beU32_enc4BE {n : Nat} (h : n < 4294967296) :
    beU32 (n / 16777216 % 256) (n / 65536 % 256) (n / 256 % 256) (n % 256) =
      n := by
  simp only [beU32]
  omega

theorem parseBatchFrames_step (frame rest : List Nat)
    (h : frame.length < 4294967296) :
    parseBatchFrames (enc4BE frame.length ++ (frame ++ rest)) =
      frame :: parseBatchFrames rest := by
  show parseBatchFrames
      (frame.length / 16777216 % 256 :: frame.length / 65536 % 256 ::
        frame.length / 256 % 256 :: frame.length % 256 :: (frame ++ rest)) =
      frame :: parseBatchFrames rest
  rw [parseBatchFrames.eq_def]
  simp only [beU32_enc4BE h]
  rw [if_pos (by simp)]
  rw [List.take_left, List.drop_left]

theorem parseBatchFrames_concat (frames : List (List Nat))
    (h : ∀ f ∈ frames, f.length < 4294967296) :
    parseBatchFrames
        ((frames.map fun f => enc4BE f.length ++ f).flatten) = frames := by
  induction frames with
  | nil =>
    rw [parseBatchFrames.eq_def]
    rfl
  | cons f fs ih =>
    have hf := h f (by simp)
    have hfs : ∀ g ∈ fs, g.length < 4294967296 := fun g hg => h g (by simp [hg])
    simp only [List.map_cons, List.flatten_cons, List.append_assoc]
    rw [parseBatchFrames_step f _ hf]
    rw [ih hfs]

/-- Claim C3: when at least one frame of a batch survives processing and
the storage check and insert succeed, the persisted rows are exactly the
surviving frames of one bulk insert; corrupt frames are dropped without
failing the batch. -/
theorem batch_partial_tolerance :
    ∀ (payload : List Nat) (env : BatchEnv),
      (parseBatchFrames payload).filterMap env.processFrame ≠ [] →
      env.storageCheck = .ok () →
      env.insertResult = .ok () →
      (batchCreateCollabHandler payload env).persisted =
          ((parseBatchFrames payload).filterMap env.processFrame).map
            (fun it => it.params) ∧
        (batchCreateCollabHandler payload env).events.count Ev.batchInsert =
          1 := by
  intro payload env hne hs hi
  simp only [batchCreateCollabHandler]
  rw [if_neg (by simp [List.isEmpty_iff, hne])]
  simp only [hs, hi]
  split
  · exact ⟨rfl, rfl⟩
  · split <;> exact ⟨rfl, rfl⟩

/-- Witness for claim C3: a batch of 10 frames with exactly 1 corrupt
frame persists 9 rows in one bulk insert. -/
theorem batch_partial_tolerance_witness :
    (parseBatchFrames payload10).length = 10 ∧
    (batchCreateCollabHandler payload10 env10).persisted.length = 9 ∧
    (batchCreateCollabHandler payload10 env10).events.count Ev.batchInsert =
      1 := by
  have hp : parseBatchFrames payload10 = frames10 :=
    parseBatchFrames_concat frames10 (by decide)
  have h := batch_partial_tolerance payload10 env10
    (by rw [hp]; decide) rfl rfl
  refine ⟨by rw [hp]; decide, ?_, h.2⟩
  rw [h.1, hp]
  decide

/-- Witness for claim C1 at concrete inputs: a run 8 bytes over the limit
is rejected with the store unchanged, a run exactly at the limit
succeeds. -/
theorem create_collab_capacity_witness :
    (createCollabHandler inpOver okCreateEnv demoStore).result =
        .error (.planLimitExceeded "Storage limit exceeded") ∧
      (createCollabHandler inpOver okCreateEnv demoStore).finalStore =
        demoStore ∧
      (createCollabHandler inpExact okCreateEnv demoStore).result = .ok () :=
  ⟨(create_collab_capacity.1 inpOver okCreateEnv demoStore (by decide)
      (by decide)).1,
   (create_collab_capacity.1 inpOver okCreateEnv demoStore (by decide)
      (by decide)).2.2,
   create_collab_capacity.2.1 inpExact okCreateEnv demoStore 0 (by decide)
      (by decide) rfl rfl rfl rfl⟩

/-- Witness for claim C9 at a concrete request. -/
theorem create_collab_same_id_rejected_witness :
    (createCollabHandler inpSame okCreateEnv demoStore).result =
        .error (.invalidRequest
          "object_id cannot be the same as workspace_id") ∧
      (createCollabHandler inpSame okCreateEnv demoStore).events = [] :=
  ⟨(create_collab_same_id_rejected inpSame okCreateEnv demoStore rfl).1,
   (create_collab_same_id_rejected inpSame okCreateEnv demoStore rfl).2.1⟩

theorem createCollabHandler_events_cases (inp : CreateCollabInput)
    (env : CreateCollabEnv) (store : Store) :
    (createCollabHandler inp env store).events = [] ∨
    (createCollabHandler inp env store).events = [.capacityCheck] ∨
    (createCollabHandler inp env store).events =
      [.capacityCheck, .decodeCollab] ∨
    (createCollabHandler inp env store).events =
      [.capacityCheck, .decodeCollab, .validateData] ∨
    (createCollabHandler inp env store).events =
      [.capacityCheck, .decodeCollab, .validateData, .indexSubmit] ∨
    (createCollabHandler inp env store).events =
      [.capacityCheck, .decodeCollab, .validateData, .indexSubmit,
        .txBegin, .upsert] ∨
    (createCollabHandler inp env store).events =
      [.capacityCheck, .decodeCollab, .validateData, .indexSubmit,
        .txBegin, .upsert, .txCommit] ∨
    (createCollabHandler inp env store).events =
      [.capacityCheck, .decodeCollab, .validateData, .txBegin, .upsert] ∨
    (createCollabHandler inp env store).events =
      [.capacityCheck, .decodeCollab, .validateData, .txBegin, .upsert,
        .txCommit] := by
  simp only [createCollabHandler]
  repeat' split
  all_goals simp

theorem batchCreateCollabHandler_events_cases (payload : List Nat)
    (env : BatchEnv) :
    (batchCreateCollabHandler payload env).events = [] ∨
    (batchCreateCollabHandler payload env).events = [.storageCheck] ∨
    (batchCreateCollabHandler payload env).events =
      [.storageCheck, .batchInsert] ∨
    (batchCreateCollabHandler payload env).events =
      [.storageCheck, .batchInsert, .indexSubmit] := by
  simp only [batchCreateCollabHandler]
  repeat' split
  all_goals simp

/-- Claim C2 (amended): in the single-create handler the pending index
task is submitted strictly before the write transaction begins, and a
failing submission aborts the request before any write with the store
unchanged; in the batch handler the index tasks are submitted strictly
after the bulk insert, and a failing batch submission fails the request
even though the rows were already persisted. -/
theorem index_submission_ordering :
    (∀ (inp : CreateCollabInput) (env : CreateCollabEnv) (store : Store),
      Ev.indexSubmit ∈ (createCollabHandler inp env store).events →
      Ev.txBegin ∈ (createCollabHandler inp env store).events →
      (createCollabHandler inp env store).events.indexOf Ev.indexSubmit <
        (createCollabHandler inp env store).events.indexOf Ev.txBegin) ∧
    (∀ (inp : CreateCollabInput) (env : CreateCollabEnv) (store : Store)
        (e : AppError),
      env.indexSubmitOne = .error e →
      Ev.indexSubmit ∈ (createCollabHandler inp env store).events →
      (createCollabHandler inp env store).result = .error e ∧
        Ev.txBegin ∉ (createCollabHandler inp env store).events ∧
        (createCollabHandler inp env store).finalStore = store) ∧
    (∀ (payload : List Nat) (env : BatchEnv),
      Ev.indexSubmit ∈ (batchCreateCollabHandler payload env).events →
      Ev.batchInsert ∈ (batchCreateCollabHandler payload env).events ∧
        (batchCreateCollabHandler payload env).events.indexOf
            Ev.batchInsert <
          (batchCreateCollabHandler payload env).events.indexOf
            Ev.indexSubmit) ∧
    (∀ (payload : List Nat) (env : BatchEnv) (e : AppError),
      env.indexSubmitBatch = .error e →
      Ev.indexSubmit ∈ (batchCreateCollabHandler payload env).events →
      (batchCreateCollabHandler payload env).result = .error e ∧
        (batchCreateCollabHandler payload env).persisted =
          ((parseBatchFrames payload).filterMap env.processFrame).map
            (fun it => it.params)) := by
  refine ⟨?_, ?_, ?_, ?_⟩
  · intro inp env store
    rcases createCollabHandler_events_cases inp env store with
      h | h | h | h | h | h | h | h | h <;> rw [h] <;> decide
  · intro inp env store e hsub
    simp only [createCollabHandler]
    repeat' split
    all_goals intro hmem
    all_goals simp_all
  · intro payload env
    rcases batchCreateCollabHandler_events_cases payload env with
      h | h | h | h <;> rw [h] <;> decide
  · intro payload env e hsub
    simp only [batchCreateCollabHandler]
    repeat' split
    all_goals intro hmem
    all_goals simp_all

/-- Counterexample for claim C2 as stated: a successful single-create run
of a Document collab whose trace submits the index task strictly before
the transaction commit. -/
theorem index_submitted_before_commit_cex :
    (createCollabHandler inpExact okCreateEnv demoStore).result = .ok () ∧
    inpExact.collab_type = CollabType.document ∧
    Ev.indexSubmit ∈ (createCollabHandler inpExact okCreateEnv demoStore).events ∧
    Ev.txCommit ∈ (createCollabHandler inpExact okCreateEnv demoStore).events ∧
    (createCollabHandler inpExact okCreateEnv demoStore).events.indexOf
        Ev.indexSubmit <
      (createCollabHandler inpExact okCreateEnv demoStore).events.indexOf
        Ev.txCommit := by
  decide

theorem publishLoop_guard_data (dm : List Nat → Option Nat)
    (m lb2 rest : List Nat) (v : Nat) (acc : List PublishItem)
    (hm0 : m.length ≠ 0) (hmc : m.length ≤ 4 * 1024 * 1024)
    (hdm : dm m = some v) (hlb2 : lb2.length = 4)
    (hbig : prefixVal true lb2 > 32 * 1024 * 1024) :
    publishLoop true dm (enc4LE m.length ++ m ++ lb2 ++ rest) acc =
      .error (.invalidRequest "data too large") := by
  have hm32 : m.length < 4294967296 := by omega
  rw [publishLoop.eq_def]
  have ht1 : takeExact 4 (enc4LE m.length ++ m ++ lb2 ++ rest) =
      some (enc4LE m.length, m ++ lb2 ++ rest) := by
    rw [← enc4LE_length m.length]
    simp only [List.append_assoc]
    exact takeExact_append
  split
  · rename_i heq
    rw [ht1] at heq
    cases heq
  · rename_i lenBytes rest1 heq
    rw [ht1] at heq
    injection heq with heq2
    injection heq2 with hl hr
    subst hl
    subst hr
    rw [prefixVal_enc4LE hm32]
    rw [if_neg (by omega), if_neg hm0]
    have ht2 : takeExact m.length (m ++ (lb2 ++ rest)) =
        some (m, lb2 ++ rest) := takeExact_append
    split
    · rename_i heq
      simp only [List.append_assoc] at heq
      rw [ht2] at heq
      cases heq
    · rename_i metaBytes rest2 heq
      simp only [List.append_assoc] at heq
      rw [ht2] at heq
      injection heq with heq2
      injection heq2 with hl hr
      subst hl
      subst hr
      rw [hdm]
      have ht3 : takeExact 4 (lb2 ++ rest) = some (lb2, rest) := by
        rw [← hlb2]
        exact takeExact_append
      split
      · rename_i heq
        cases heq
      rename_i meta heq
      injection heq with hv
      subst hv
      split
      · rename_i heq
        rw [ht3] at heq
        cases heq
      · rename_i lenBytes2 rest3 heq
        rw [ht3] at heq
        injection heq with heq2
        injection heq2 with hl hr
        subst hl
        subst hr
        rw [if_pos hbig]

/-- Claim C4 (amended): the publish stream is parsed as repeated pairs of
a length-prefixed metadata frame and a length-prefixed payload frame
where every length prefix is a 4-byte little-endian u32 (the source reads
it with `read_u32_little_endian`), successful parsing terminates exactly
at a zero-length metadata frame, and a stream without the terminator
never parses successfully. -/
theorem publish_stream_little_endian_framing :
    ∀ (dm : List Nat → Option Nat) (pairs : List (List Nat × List Nat))
      (junk : List Nat),
      PairsOk dm pairs →
      parsePublishStream dm (encodePublishStream pairs ++ junk) =
          .ok (pairs.map (itemOf dm)) ∧
        parsePublishStream dm
            ((pairs.map fun p => encodePublishPair p.1 p.2).flatten) =
          .error (.internal "failed to read metadata length") := by
  intro dm pairs junk h
  constructor
  · show publishLoop true dm (encodePublishStream pairs ++ junk) [] = _
    rw [encodePublishStream, List.append_assoc]
    rw [publishLoop_encode_terminated dm pairs junk h []]
    simp
  · exact publishLoop_encode_unterminated dm pairs h []

/-- Counterexample for claim C4 as stated: a stream whose first length
prefix is the little-endian encoding of 1 parses successfully under the
source parser but is rejected as oversized metadata by the parser that
reads prefixes big-endian as the spec words them. -/
theorem publish_stream_endianness_cex :
    parsePublishStream dmAny bytesC4 = .ok [{ meta := 7, data := [] }] ∧
    parsePublishStreamBESpec dmAny bytesC4 =
      .error (.invalidRequest "metadata too large") := by
  constructor
  · have hb : bytesC4 = encodePublishStream [([65], [])] ++ [] := by decide
    rw [hb]
    show publishLoop true dmAny (encodePublishStream [([65], [])] ++ []) [] = _
    rw [encodePublishStream, List.append_assoc]
    rw [publishLoop_encode_terminated dmAny [([65], [])] [] ?_ []]
    · simp [itemOf, dmAny]
    · intro p hp
      simp only [List.mem_singleton] at hp
      subst hp
      exact ⟨by decide, by decide, ⟨7, rfl⟩, by decide⟩
  · show publishLoop false dmAny ([1, 0, 0, 0] ++ [65, 0, 0, 0, 0, 0, 0, 0, 0]) [] = _
    exact publishLoop_guard_meta false dmAny [1, 0, 0, 0]
      [65, 0, 0, 0, 0, 0, 0, 0, 0] [] (by decide) (by decide)

/-- Witness for claim C4 (amended): a concrete two-pair stream with
trailing junk after the terminator parses to exactly its two items. -/
theorem publish_stream_little_endian_framing_witness :
    parsePublishStream dmAny
        (encodePublishStream [([65], [66, 67]), ([68], [])] ++ [9]) =
      .ok [{ meta := 7, data := [66, 67] }, { meta := 7, data := [] }] := by
  have h := publish_stream_little_endian_framing dmAny
    [([65], [66, 67]), ([68], [])] [9] ?_
  · rw [h.1]
    decide
  · intro p hp
    simp only [List.mem_cons, List.mem_singleton] at hp
    rcases hp with hp | hp | hp
    · subst hp
      exact ⟨by decide, by decide, ⟨7, rfl⟩, by decide⟩
    · subst hp
      exact ⟨by decide, by decide, ⟨7, rfl⟩, by decide⟩
    · cases hp

/-- Claim C5: a metadata prefix above 4 MiB and a data prefix above
32 MiB are rejected with a typed invalid-request error for every possible
frame body (the body is never read), and a full-sync HTTP body above
50 MiB is rejected with a typed error for every decoding oracle (before
any decode or decompression), with nothing delivered. -/
theorem size_guards_before_body_read :
    (∀ (dm : List Nat → Option Nat) (lb rest : List Nat),
      lb.length = 4 → prefixVal true lb > 4 * 1024 * 1024 →
      parsePublishStream dm (lb ++ rest) =
        .error (.invalidRequest "metadata too large")) ∧
    (∀ (dm : List Nat → Option Nat) (m lb2 rest : List Nat) (v : Nat),
      m.length ≠ 0 → m.length ≤ 4 * 1024 * 1024 → dm m = some v →
      lb2.length = 4 → prefixVal true lb2 > 32 * 1024 * 1024 →
      parsePublishStream dm (enc4LE m.length ++ m ++ lb2 ++ rest) =
        .error (.invalidRequest "data too large")) ∧
    (∀ (env : FullSyncEnv) (body : List Nat),
      body.length > 1024 * 1024 * 50 →
      (collabFullSyncHandler body env).result =
          .error (.invalidRequest "body size exceeds limit") ∧
        (collabFullSyncHandler body env).delivered = none) := by
  refine ⟨?_, ?_, ?_⟩
  · intro dm lb rest hlb hbig
    exact publishLoop_guard_meta true dm lb rest [] hlb hbig
  · intro dm m lb2 rest v hm0 hmc hdm hlb2 hbig
    exact publishLoop_guard_data dm m lb2 rest v [] hm0 hmc hdm hlb2 hbig
  · intro env body hlen
    simp only [collabFullSyncHandler]
    rw [if_neg (by
      simp only [List.isEmpty_iff]
      intro h
      rw [h] at hlen
      simp at hlen)]
    rw [if_pos hlen]
    exact ⟨rfl, rfl⟩

/-- Witness for claim C5 at concrete oversized prefixes and an oversized
full-sync body. -/
theorem size_guards_before_body_read_witness :
    parsePublishStream dmAny [0, 0, 0, 1, 5, 5] =
        .error (.invalidRequest "metadata too large") ∧
      parsePublishStream dmAny [1, 0, 0, 0, 65, 0, 0, 0, 9] =
        .error (.invalidRequest "data too large") ∧
      (collabFullSyncHandler bigBody envFS).result =
        .error (.invalidRequest "body size exceeds limit") ∧
      (collabFullSyncHandler bigBody envFS).delivered = none := by
  refine ⟨?_, ?_, ?_, ?_⟩
  · exact size_guards_before_body_read.1 dmAny [0, 0, 0, 1] [5, 5]
      (by decide) (by decide)
  · exact size_guards_before_body_read.2.1 dmAny [65] [0, 0, 0, 9] [] 7
      (by decide) (by decide) rfl (by decide) (by decide)
  · exact (size_guards_before_body_read.2.2 envFS bigBody
      (by rw [bigBody, List.length_replicate]; omega)).1
  · exact (size_guards_before_body_read.2.2 envFS bigBody
      (by rw [bigBody, List.length_replicate]; omega)).2

/-- Claim C6 (amended): a full-sync request with an empty body or an
empty decoded doc state is rejected with a typed invalid-request error
before anything is delivered to the document actor; an empty client state
vector is not rejected and is forwarded to the actor unchanged. -/
theorem full_sync_empty_checks :
    (∀ env : FullSyncEnv,
      (collabFullSyncHandler [] env).result =
          .error (.invalidRequest "body is empty") ∧
        (collabFullSyncHandler [] env).delivered = none) ∧
    (∀ (env : FullSyncEnv) (body : List Nat) (params : CollabDocStateParams),
      body ≠ [] → body.length ≤ 1024 * 1024 * 50 →
      env.decodeBody body = some params → params.doc_state = [] →
      (collabFullSyncHandler body env).result =
          .error (.invalidRequest "doc state is empty") ∧
        (collabFullSyncHandler body env).delivered = none) ∧
    (∀ (env : FullSyncEnv) (body : List Nat) (params : CollabDocStateParams),
      body ≠ [] → body.length ≤ 1024 * 1024 * 50 →
      env.decodeBody body = some params → params.doc_state ≠ [] →
      params.compression = 0 → env.storageCheck = .ok () →
      env.mailboxFree = true →
      (collabFullSyncHandler body env).delivered =
        some { update := params.doc_state, state_vector := params.sv }) := by
  refine ⟨?_, ?_, ?_⟩
  · intro env
    exact ⟨rfl, rfl⟩
  · intro env body params hne hlen hdec hds
    simp only [collabFullSyncHandler]
    rw [if_neg (by simp [List.isEmpty_iff, hne])]
    rw [if_neg (by omega)]
    simp only [hdec]
    rw [hds]
    exact ⟨rfl, rfl⟩
  · intro env body params hne hlen hdec hds hcomp hsc hmb
    simp only [collabFullSyncHandler]
    rw [if_neg (by simp [List.isEmpty_iff, hne])]
    rw [if_neg (by omega)]
    simp only [hdec]
    rw [if_neg (by simp [List.isEmpty_iff, hds])]
    have hc : payloadCompressionTryFrom params.compression =
        some PayloadCompressionType.plain := by
      rw [hcomp]
      decide
    simp only [hc, hsc, hmb, Bool.true_eq_false, if_false]
    split <;> rfl

/-- Counterexample for claim C6 as stated: a full-sync run whose client
state vector is empty is not rejected; the update is delivered with the
empty vector and the request completes. -/
theorem full_sync_empty_sv_delivered_cex :
    (collabFullSyncHandler [9] envC6).delivered =
        some { update := [1], state_vector := [] } ∧
      (collabFullSyncHandler [9] envC6).result =
        .ok { status := 500, body := [] } := by
  decide

/-- Witness for claim C6 (amended) at concrete runs. -/
theorem full_sync_empty_checks_witness :
    (collabFullSyncHandler [] envFS).result =
        .error (.invalidRequest "body is empty") ∧
      (collabFullSyncHandler [9] envC6).delivered =
        some { update := [1], state_vector := [] } := by
  refine ⟨(full_sync_empty_checks.1 envFS).1, ?_⟩
  exact full_sync_empty_checks.2.2 envC6 [9] _ (by decide) (by decide)
      rfl (by decide) rfl rfl rfl

/-- Claim C7 (amended): when the realtime server mailbox is saturated,
the try-send of the realtime-stream and full-sync handlers fails
immediately with an Internal error and nothing is queued or delivered;
the error is not the dedicated retryable Busy class of the spec taxonomy;
when the mailbox is free the message is admitted immediately. -/
theorem try_send_saturation_internal :
    (∀ m : Nat,
      (postRealtimeMessageStreamHandler (.ok m) false).result =
          .error (.internal "Failed to send message to websocket server") ∧
        (postRealtimeMessageStreamHandler (.ok m) false).delivered = none) ∧
    (∀ m : Nat,
      (postRealtimeMessageStreamHandler (.ok m) true).result = .ok () ∧
        (postRealtimeMessageStreamHandler (.ok m) true).delivered =
          some m) ∧
    (∀ (env : FullSyncEnv) (body : List Nat)
        (params : CollabDocStateParams),
      body ≠ [] → body.length ≤ 1024 * 1024 * 50 →
      env.decodeBody body = some params → params.doc_state ≠ [] →
      params.compression = 0 → env.storageCheck = .ok () →
      env.mailboxFree = false →
      (collabFullSyncHandler body env).result =
          .error (.internal "Failed to send message to server") ∧
        (collabFullSyncHandler body env).delivered = none) ∧
    (∀ s : String, (AppError.internal s).isRetryableBusy = false) := by
  refine ⟨fun m => ⟨rfl, rfl⟩, fun m => ⟨rfl, rfl⟩, ?_, fun s => rfl⟩
  intro env body params hne hlen hdec hds hcomp hsc hmb
  simp only [collabFullSyncHandler]
  rw [if_neg (by simp [List.isEmpty_iff, hne])]
  rw [if_neg (by omega)]
  simp only [hdec]
  rw [if_neg (by simp [List.isEmpty_iff, hds])]
  have hc : payloadCompressionTryFrom params.compression =
      some PayloadCompressionType.plain := by
    rw [hcomp]
    decide
  simp only [hc, hsc, hmb]
  exact ⟨rfl, rfl⟩

/-- Witness for claim C7 (amended) at concrete saturated runs of both
handlers. -/
theorem try_send_saturation_internal_witness :
    (postRealtimeMessageStreamHandler (.ok 5) false).result =
        .error (.internal "Failed to send message to websocket server") ∧
      (collabFullSyncHandler [9] envSat).result =
        .error (.internal "Failed to send message to server") ∧
      (collabFullSyncHandler [9] envSat).delivered = none :=
  ⟨(try_send_saturation_internal.1 5).1,
   (try_send_saturation_internal.2.2.1 envSat [9] _ (by decide) (by decide)
      rfl (by decide) rfl rfl rfl).1,
   (try_send_saturation_internal.2.2.1 envSat [9] _ (by decide) (by decide)
      rfl (by decide) rfl rfl rfl).2⟩

/-- Counterexample for claim C7 as stated: a saturated try-send returns
an Internal-class error, not a retryable Busy error. -/
theorem busy_reported_as_internal_cex :
    (postRealtimeMessageStreamHandler (.ok 5) false).result =
        .error (.internal "Failed to send message to websocket server") ∧
      (postRealtimeMessageStreamHandler (.ok 5) false).delivered = none ∧
      AppError.isRetryableBusy
        (.internal "Failed to send message to websocket server") = false :=
  ⟨rfl, rfl, rfl⟩

/-- Claim C8: a full-sync request that reaches the actor returns, on a
snapshot reply, exactly that snapshot compressed with zstd at level 3
with status 200; on no snapshot, an empty body with status 500; on an
actor error, the error response, which has an empty body and a non-200
status. -/
theorem full_sync_response_encoding :
    ∀ (env : FullSyncEnv) (body : List Nat) (params : CollabDocStateParams),
      body ≠ [] → body.length ≤ 1024 * 1024 * 50 →
      env.decodeBody body = some params → params.doc_state ≠ [] →
      params.compression = 0 → env.storageCheck = .ok () →
      env.mailboxFree = true →
      (∀ data : List Nat, env.actorReply = .ok (some data) →
        (collabFullSyncHandler body env).result =
          .ok { status := 200, body := env.zstdEncode 3 data }) ∧
      (env.actorReply = .ok none →
        (collabFullSyncHandler body env).result =
          .ok { status := 500, body := [] }) ∧
      (∀ e : AppError, env.actorReply = .error e →
        (collabFullSyncHandler body env).result = .ok (errorResponse e) ∧
          (errorResponse e).body = [] ∧ (errorResponse e).status ≠ 200) := by
  intro env body params hne hlen hdec hds hcomp hsc hmb
  have hc : payloadCompressionTryFrom params.compression =
      some PayloadCompressionType.plain := by
    rw [hcomp]
    decide
  refine ⟨?_, ?_, ?_⟩
  · intro data hreply
    simp only [collabFullSyncHandler]
    rw [if_neg (by simp [List.isEmpty_iff, hne])]
    rw [if_neg (by omega)]
    simp only [hdec]
    rw [if_neg (by simp [List.isEmpty_iff, hds])]
    simp only [hc, hsc, hmb, Bool.true_eq_false, if_false, hreply]
  · intro hreply
    simp only [collabFullSyncHandler]
    rw [if_neg (by simp [List.isEmpty_iff, hne])]
    rw [if_neg (by omega)]
    simp only [hdec]
    rw [if_neg (by simp [List.isEmpty_iff, hds])]
    simp only [hc, hsc, hmb, Bool.true_eq_false, if_false, hreply]
  · intro e hreply
    refine ⟨?_, rfl, ?_⟩
    · simp only [collabFullSyncHandler]
      rw [if_neg (by simp [List.isEmpty_iff, hne])]
      rw [if_neg (by omega)]
      simp only [hdec]
      rw [if_neg (by simp [List.isEmpty_iff, hds])]
      simp only [hc, hsc, hmb, Bool.true_eq_false, if_false, hreply]
    · cases e <;> simp [errorResponse]

/-- Witness for claim C8: a concrete run whose zstd oracle records the
compression level shows the body is the level-3 encoding of the
snapshot. -/
theorem full_sync_response_encoding_witness :
    (collabFullSyncHandler [9] envSnap).result =
      .ok { status := 200, body := [3, 1, 2] } :=
  (full_sync_response_encoding envSnap [9] _ (by decide) (by decide) rfl
    (by decide) rfl rfl rfl).1 [1, 2] rfl

/-- Witness for claim C2 (amended) at concrete runs of both handlers. -/
theorem index_submission_ordering_witness :
    Ev.indexSubmit ∈
        (createCollabHandler inpExact okCreateEnv demoStore).events ∧
      (createCollabHandler inpExact okCreateEnv demoStore).events.indexOf
          Ev.indexSubmit <
        (createCollabHandler inpExact okCreateEnv demoStore).events.indexOf
          Ev.txBegin ∧
      (batchCreateCollabHandler payloadIdx envIdx).events.indexOf
          Ev.batchInsert <
        (batchCreateCollabHandler payloadIdx envIdx).events.indexOf
          Ev.indexSubmit := by
  have hp : parseBatchFrames payloadIdx = [[5]] := by
    rw [show payloadIdx =
      (([[5]] : List (List Nat)).map fun f => enc4BE f.length ++ f).flatten
      from by decide]
    exact parseBatchFrames_concat [[5]] (by decide)
  have hmem : Ev.indexSubmit ∈
      (batchCreateCollabHandler payloadIdx envIdx).events := by
    simp only [batchCreateCollabHandler, hp]
    decide
  exact ⟨by decide,
    index_submission_ordering.1 inpExact okCreateEnv demoStore (by decide)
      (by decide),
    (index_submission_ordering.2.2.1 payloadIdx envIdx hmem).2⟩

end PonyNotes
